import Mathlib

/-!
Shallow embedding of the DULMS-Notifications-BOT core (task registry,
session orchestrator, notification dispatcher) for verification of its
natural-language specification.

Sources embedded:
  app/config/settings.py      -- configuration constants (default values)
  app/models/schemas.py       -- TaskStatus enum
  app/utils/notifications.py  -- send_discord_webhook, format_discord_embeds_*
  app/services/scraper.py     -- login_to_dulms, scrape_assignments,
                                 scrape_quizzes, run_dulms_scraper
  app/services/task_manager.py-- create_scraper_task, run_scraper_task,
                                 get_task_status, get_task_result, get_task_logs

External effects (Selenium driver, network, clock) are modelled as explicit
environment parameters/oracles; Python exceptions are modelled with
`Except`/`Option`; Python dicts keyed by task id are modelled as functions
`String → Option _`.
-/

namespace Dulms

/-! ## settings.py (default configuration values; env overrides not modelled) -/

def DEADLINE_THRESHOLD_DAYS : Int := 3

def MAX_LOGIN_RETRIES : Nat := 3

def CAPTCHA_SOLVE_RETRIES : Nat := 3

def LOGIN_SUCCESS_URL_PART : String := "Profile/StudentProfile"

def ASSIGNMENTS_URL : String := "https://dulms.deltauniv.edu.eg/Assignment/AssignmentStudentList"

def QUIZZES_URL : String := "https://dulms.deltauniv.edu.eg/Quizzes/StudentQuizzes"

/-! ## schemas.py : TaskStatus -/

/-- Values of the `TaskStatus` enum in app/models/schemas.py. -/
inductive TaskStatus where
  | pending
  | running
  | completed
  | error
deriving DecidableEq, Repr

/-- A status is terminal when it is `completed` or `error`. -/
def TaskStatus.isTerminal : TaskStatus → Bool
  | .completed => true
  | .error => true
  | _ => false

/-! ## Record data (assignment/quiz dictionaries built by the scraper) -/

/-- One assignment or quiz record, as the dictionary built in
`scrape_assignments` / `scrape_quizzes`: `days_remaining` is `none` when the
deadline string failed to parse. -/
structure RecordData where
  id : String
  title : String
  course : String
  deadline : String
  days_remaining : Option Int
  status : String
  url : String
deriving DecidableEq, Repr

/-- The dictionary returned by `run_dulms_scraper`. -/
structure ScrapeResultD where
  assignments : List RecordData
  quizzes : List RecordData
  timestamp : String
  success : Bool
  message : String
deriving DecidableEq, Repr

/-! ## notifications.py -/

/-- A Discord embed dictionary as built by the `format_discord_embeds_*`
functions. -/
structure Embed where
  title : String
  description : String
  color : Nat
  url : String
deriving DecidableEq, Repr

/-- The JSON payload of one webhook POST: `embeds` is absent (`none`) when the
embed list was empty (`payload["embeds"] = embeds` happens only `if embeds`). -/
structure Post where
  url : String
  content : String
  embeds : Option (List Embed)
deriving DecidableEq, Repr

/-- Python str.lower(), modelled character-wise (ASCII case folding, which is
all the done markers need). -/
def strLower (s : String) : String :=
  String.mk (s.data.map Char.toLower)

/-- Embed colour computation shared by both format functions
(notifications.py lines 61-65 / 92-96): start red, overwrite with yellow when
`days_remaining > 1`, overwrite with green when the lower-cased status equals
the done marker. -/
def cardColor (doneMarker : String) (days_remaining : Int) (status : String) : Nat :=
  let color := 0xFF0000
  let color := if days_remaining > 1 then 0xFFFF00 else color
  let color := if strLower status = doneMarker then 0x00FF00 else color
  color

/-- Embed description string (notifications.py line 69/100). -/
def embedDescription (r : RecordData) (daysShown : String) : String :=
  "**Course:** " ++ r.course ++ "\n**Deadline:** " ++ r.deadline ++
  "\n**Days Remaining:** " ++ daysShown ++ "\n**Status:** " ++ r.status

/-- format_discord_embeds_for_assignments: one embed per record.  Accessing
`assignment[\x22days_remaining\x22] > 1` on a record whose `days_remaining` is
null raises a TypeError in Python; that is modelled as `Except.error`. -/
def format_discord_embeds_for_assignments : List RecordData → Except String (List Embed)
  | [] => .ok []
  | a :: rest =>
    match a.days_remaining with
    | none => .error "TypeError: unorderable types: NoneType and int"
    | some d =>
      match format_discord_embeds_for_assignments rest with
      | .error e => .error e
      | .ok es =>
        .ok ({ title := a.title,
               description := embedDescription a (toString d),
               color := cardColor "submitted" d a.status,
               url := a.url } :: es)

/-- format_discord_embeds_for_quizzes: identical shape, done marker
"completed". -/
def format_discord_embeds_for_quizzes : List RecordData → Except String (List Embed)
  | [] => .ok []
  | q :: rest =>
    match q.days_remaining with
    | none => .error "TypeError: unorderable types: NoneType and int"
    | some d =>
      match format_discord_embeds_for_quizzes rest with
      | .error e => .error e
      | .ok es =>
        .ok ({ title := q.title,
               description := embedDescription q (toString d),
               color := cardColor "completed" d q.status,
               url := q.url } :: es)

/-- send_discord_webhook: empty url → no POST, return false; otherwise exactly
one POST is issued whose payload carries the embeds only when non-empty.
`netOk` models whether `requests.post`/`raise_for_status` succeeded; a network
failure is caught and returns false (never raises past the boundary). -/
def send_discord_webhook (webhook_url : String) (content : String)
    (embeds : List Embed) (netOk : Bool) : Bool × List Post :=
  if webhook_url = "" then
    (false, [])
  else
    let payload : Post :=
      { url := webhook_url, content := content,
        embeds := if embeds.isEmpty then none else some embeds }
    (netOk, [payload])

/-! ## run_dulms_scraper notification filter (scraper.py lines 505-513) -/

/-- The list-comprehension predicate:
`a.get(\x22days_remaining\x22) is not None and a.get(\x22days_remaining\x22) <= deadline_threshold`. -/
def qualifies (deadline_threshold : Int) (r : RecordData) : Bool :=
  match r.days_remaining with
  | none => false
  | some d => d ≤ deadline_threshold

/-- Helper to build a record that only carries the fields the filter and the
formatter read. -/
def mkRecord (days : Option Int) (status : String) : RecordData :=
  { id := "1", title := "t", course := "c", deadline := "01/01/2030",
    days_remaining := days, status := status, url := "u" }

/-! ## scraper.py : listing scrape (scrape_assignments lines 279-362,
scrape_quizzes lines 364-447; the two functions are textually identical up to
the url, the table id and the record name, so they share one row routine
parameterised by the listing url). -/

/-- Whether a code point is whitespace for Python `str.strip()`
(`Py_UNICODE_ISSPACE`): tab through carriage return (09-0D), the four
separator controls 1C-1F, space, NEL 85, NBSP A0, Ogham space mark 1680, the
typographic spaces 2000-200A, line separator 2028, paragraph separator 2029,
narrow no-break space 202F, medium mathematical space 205F, and ideographic
space 3000. -/
def pyIsSpace (c : Char) : Bool :=
  let n := c.toNat
  (0x09 ≤ n && n ≤ 0x0D) || (0x1C ≤ n && n ≤ 0x20) ||
  n = 0x85 || n = 0xA0 || n = 0x1680 ||
  (0x2000 ≤ n && n ≤ 0x200A) || n = 0x2028 || n = 0x2029 ||
  n = 0x202F || n = 0x205F || n = 0x3000

/-- Python str.strip(): drop whitespace from both ends (modelled on the
character list, since the core `String.trim` does not reduce in the kernel). -/
def strTrim (s : String) : String :=
  String.mk (((s.data.dropWhile pyIsSpace).reverse.dropWhile pyIsSpace).reverse)

/-- Split a character list on a separator character; the result always has at
least one (possibly empty) group. -/
def splitChar (sep : Char) : List Char → List (List Char)
  | [] => [[]]
  | c :: rest =>
    if c = sep then [] :: splitChar sep rest
    else
      match splitChar sep rest with
      | g :: gs => (c :: g) :: gs
      | [] => [[c]]

/-- First code point of every run of Unicode decimal digits (category Nd,
Unicode 15.0, as shipped with current CPython); each run is the ten
consecutive code points zero..nine.  The regex class `\d` of a CPython `str`
pattern matches exactly these characters, and `int()` accepts exactly them
as digits. -/
def ndZeros : List Nat :=
  [0x0030, 0x0660, 0x06F0, 0x07C0, 0x0966, 0x09E6, 0x0A66, 0x0AE6, 0x0B66,
   0x0BE6, 0x0C66, 0x0CE6, 0x0D66, 0x0DE6, 0x0E50, 0x0ED0, 0x0F20, 0x1040,
   0x1090, 0x17E0, 0x1810, 0x1946, 0x19D0, 0x1A80, 0x1A90, 0x1B50, 0x1BB0,
   0x1C40, 0x1C50, 0xA620, 0xA8D0, 0xA900, 0xA9D0, 0xA9F0, 0xAA50, 0xABF0,
   0xFF10, 0x104A0, 0x10D30, 0x11066, 0x110F0, 0x11136, 0x111D0, 0x112F0,
   0x11450, 0x114D0, 0x11650, 0x116C0, 0x11730, 0x118E0, 0x11950, 0x11C50,
   0x11D50, 0x11DA0, 0x11F50, 0x16A60, 0x16AC0, 0x16B50, 0x1D7CE, 0x1D7D8,
   0x1D7E2, 0x1D7EC, 0x1D7F6, 0x1E140, 0x1E2F0, 0x1E4F0, 0x1E950, 0x1FBF0]

/-- Decimal value of a Unicode decimal digit (`\d` / `int()` semantics), or
`none` for every other character. -/
def uniDigit? (c : Char) : Option Nat :=
  (ndZeros.find? (fun z => z ≤ c.toNat && c.toNat ≤ z + 9)).map
    (fun z => c.toNat - z)

/-- Python `int()` on a non-empty all-digit group (the only shape the
`strptime` regex hands it): positional value of the Unicode digits. -/
def decNat? : List Char → Option Nat
  | [] => none
  | l =>
    if l.all (fun c => (uniDigit? c).isSome) then
      some (l.foldl (fun n c => n * 10 + (uniDigit? c).getD 0) 0)
    else none

/-- The day group of the compiled `%d` pattern,
`3[01]|[12]\d|0[1-9]|[1-9]`: the alternative must consume the whole
slash-delimited field (the next pattern character is the literal `/`), and
the matched text is then converted with `int()`. -/
def matchDay (cs : List Char) : Option Nat :=
  match cs with
  | [c1] =>
    if 0x31 ≤ c1.toNat && c1.toNat ≤ 0x39 then decNat? [c1] else none
  | [c1, c2] =>
    if (c1.toNat = 0x33 && (c2.toNat = 0x30 || c2.toNat = 0x31)) ||
        ((c1.toNat = 0x31 || c1.toNat = 0x32) && (uniDigit? c2).isSome) ||
        (c1.toNat = 0x30 && (0x31 ≤ c2.toNat && c2.toNat ≤ 0x39)) then
      decNat? [c1, c2]
    else none
  | _ => none

/-- The month group of the compiled `%m` pattern, `1[0-2]|0[1-9]|[1-9]`
(ASCII-only by construction), converted with `int()`. -/
def matchMonth (cs : List Char) : Option Nat :=
  match cs with
  | [c1] =>
    if 0x31 ≤ c1.toNat && c1.toNat ≤ 0x39 then decNat? [c1] else none
  | [c1, c2] =>
    if (c1.toNat = 0x31 && (0x30 ≤ c2.toNat && c2.toNat ≤ 0x32)) ||
        (c1.toNat = 0x30 && (0x31 ≤ c2.toNat && c2.toNat ≤ 0x39)) then
      decNat? [c1, c2]
    else none
  | _ => none

/-- The year group of the compiled `%Y` pattern, `\d\d\d\d`: exactly four
Unicode decimal digits, converted with `int()`. -/
def matchYear (cs : List Char) : Option Nat :=
  match cs with
  | [_, _, _, _] => decNat? cs
  | _ => none

/-- Leap-year rule of the Gregorian calendar (as `datetime` validates). -/
def isLeap (y : Nat) : Bool :=
  y % 4 = 0 && (y % 100 ≠ 0 || y % 400 = 0)

/-- Number of days in a month, as `datetime` validates day-of-month. -/
def daysInMonth (y m : Nat) : Nat :=
  if m = 2 then (if isLeap y then 29 else 28)
  else if m = 4 || m = 6 || m = 9 || m = 11 then 30
  else 31

/-- Python `datetime.strptime(s, \x22%d/%m/%Y\x22)`: `_strptime` compiles the
format to the anchored full-string regex
`(3[01]|[12]\d|0[1-9]|[1-9])/(1[0-2]|0[1-9]|[1-9])/(\d\d\d\d)`.  Since `/`
matches no digit class, the regex with backtracking matches exactly when each
slash-delimited field is consumed entirely by its group, so the match is
computed field-wise over `splitChar`.  The groups are converted with `int()`
and handed to the `datetime` constructor, which rejects year 0 and a day
beyond the month length (the group patterns already bound day to 1-31 and
month to 1-12).  Returns `(day, month, year)` or `none` when the string
fails the format. -/
def parseDMY (s : String) : Option (Nat × Nat × Nat) :=
  match splitChar '/' s.data with
  | [dcs, mcs, ycs] =>
    match matchDay dcs, matchMonth mcs, matchYear ycs with
    | some d, some m, some y =>
      if 1 ≤ y && d ≤ daysInMonth y m then some (d, m, y) else none
    | _, _, _ => none
  | _ => none

/-- Days since the civil epoch 1970-01-01 for a Gregorian date (the ordinal
`datetime` subtraction works on). -/
def daysFromCivil (y m d : Int) : Int :=
  let yy := if m ≤ 2 then y - 1 else y
  let era := yy / 400
  let yoe := yy - era * 400
  let mp := (m + 9) % 12
  let doy := (153 * mp + 2) / 5 + d - 1
  let doe := yoe * 365 + yoe / 4 - yoe / 100 + doy
  era * 146097 + doe - 719468

/-- One `td` cell of a listing row: its text, and the nested anchor (text and
href) when `safe_find_element(title_cell, By.TAG_NAME, \x22a\x22)` finds one. -/
structure Cell where
  text : String
  link : Option (String × String)
deriving DecidableEq, Repr

/-- One `tr` of the listing table: either its cells, or a row whose
processing raises an extraction error (stale element and the like), which the
per-row `except` clause catches and skips. -/
inductive SRow where
  | cells (cs : List Cell)
  | raises
deriving DecidableEq, Repr

def defaultCell : Cell := { text := "", link := none }

/-- The body of the per-row loop shared by `scrape_assignments` and
`scrape_quizzes`: skip rows with fewer than six cells, pull title/url from
the anchor in the second cell (falling back to the cell text and the listing
url), parse the deadline against %d/%m/%Y, a parse failure giving
`days_remaining = none` for this record only; `none` means the row
contributed no record (skipped or raised).  `nowOrd` is the day ordinal of
`datetime.now()`. -/
def processListingRow (listingUrl : String) (nowOrd : Int) : SRow → Option RecordData
  | .raises => none
  | .cells cs =>
    if cs.length < 6 then none
    else
      let c0 := cs.getD 0 defaultCell
      let c1 := cs.getD 1 defaultCell
      let c2 := cs.getD 2 defaultCell
      let c3 := cs.getD 3 defaultCell
      let c5 := cs.getD 5 defaultCell
      let titleUrl :=
        match c1.link with
        | some (t, h) => (strTrim t, h)
        | none => (strTrim c1.text, listingUrl)
      let deadline_str := strTrim c3.text
      let days_remaining :=
        match parseDMY deadline_str with
        | some (d, m, y) =>
          some (daysFromCivil (Int.ofNat y) (Int.ofNat m) (Int.ofNat d) - nowOrd)
        | none => none
      some { id := strTrim c0.text,
             title := titleUrl.1,
             course := strTrim c2.text,
             deadline := deadline_str,
             days_remaining := days_remaining,
             status := strTrim c5.text,
             url := titleUrl.2 }

/-- scrape_assignments: `none` table means the listing container never became
visible (or navigation failed) — the partial (empty) list is returned;
otherwise the header row is dropped and each remaining row is processed,
skipped rows contributing nothing. -/
def scrape_assignments (nowOrd : Int) (table : Option (List SRow)) : List RecordData :=
  match table with
  | none => []
  | some rows => (rows.drop 1).filterMap (processListingRow ASSIGNMENTS_URL nowOrd)

/-- scrape_quizzes: identical to `scrape_assignments` with the quizzes url
and table. -/
def scrape_quizzes (nowOrd : Int) (table : Option (List SRow)) : List RecordData :=
  match table with
  | none => []
  | some rows => (rows.drop 1).filterMap (processListingRow QUIZZES_URL nowOrd)

/-! ## scraper.py : login_to_dulms (lines 198-277) -/

/-- Observable outcome of one iteration of the CAPTCHA loop in
`login_to_dulms`, as decided by the page and the solving service:
  * `noImage`      — `get_captcha_image` returned None (`continue`);
  * `solveFailed`  — image obtained but `solve_captcha` returned None
                     (`continue`);
  * `loginSuccess` — solution submitted and the current url contains
                     `LOGIN_SUCCESS_URL_PART` (`return True`);
  * `errorCaptcha` — a displayed error message mentioning "CAPTCHA"
                     (`continue`);
  * `errorOther`   — a displayed error message not mentioning "CAPTCHA"
                     (`break`);
  * `noSignal`     — no success marker and no displayed error message (the
                     loop body falls through to the next iteration). -/
inductive AttemptOutcome where
  | noImage
  | solveFailed
  | loginSuccess
  | errorCaptcha
  | errorOther
  | noSignal
deriving DecidableEq, Repr

/-- Whether an iteration with this outcome called `solve_captcha` (every
outcome except a missing CAPTCHA image does). -/
def AttemptOutcome.callsSolver : AttemptOutcome → Bool
  | .noImage => false
  | _ => true

/-- The `for attempt in range(CAPTCHA_SOLVE_RETRIES)` loop of
`login_to_dulms`, iterating from attempt index `i` with `remaining`
iterations left; returns the boolean result together with the number of
`solve_captcha` calls made (accumulated in `solves`). -/
def loginLoop (outcomes : Nat → AttemptOutcome) :
    Nat → Nat → Nat → Bool × Nat
  | _, 0, solves => (false, solves)
  | i, remaining + 1, solves =>
    match outcomes i with
    | .noImage => loginLoop outcomes (i + 1) remaining solves
    | .solveFailed => loginLoop outcomes (i + 1) remaining (solves + 1)
    | .loginSuccess => (true, solves + 1)
    | .errorCaptcha => loginLoop outcomes (i + 1) remaining (solves + 1)
    | .errorOther => (false, solves + 1)
    | .noSignal => loginLoop outcomes (i + 1) remaining (solves + 1)

/-- login_to_dulms: navigate/fill fields, then run the CAPTCHA loop for
`CAPTCHA_SOLVE_RETRIES` iterations; falling out of the loop returns False
("Failed to login after multiple attempts").  Returns the result and the
number of CAPTCHA solve attempts performed. -/
def login_to_dulms (outcomes : Nat → AttemptOutcome) : Bool × Nat :=
  loginLoop outcomes 0 CAPTCHA_SOLVE_RETRIES 0

/-! ## scraper.py : run_dulms_scraper (lines 449-550) -/

/-- Environment one run of `run_dulms_scraper` interacts with:
  * `initResult` — whether `initialize_driver` returned a driver or raised
    (the raised message);
  * `loginOutcomes` — the page/solver behaviour driving `login_to_dulms`;
  * `assignmentsTable`, `quizzesTable` — the listing tables the two scrape
    calls observe (`none` = container not found);
  * `scrapeFault` — `some e` injects an unexpected exception raised after a
    successful login (during scraping/notification assembly), exercising the
    top-level `except` clause;
  * `webhookOk` — whether the webhook POST gets a 2xx response;
  * `quitFails` — whether `driver.quit()` raises in the `finally` block;
  * `nowOrd`, `nowIso` — the clock (day ordinal for deadline arithmetic and
    the iso timestamp string). -/
structure RunEnv where
  initResult : Except String Unit
  loginOutcomes : Nat → AttemptOutcome
  assignmentsTable : Option (List SRow)
  quizzesTable : Option (List SRow)
  scrapeFault : Option String
  webhookOk : Bool
  quitFails : Bool
  nowOrd : Int
  nowIso : String

/-- The result dictionary as initialised at the top of `run_dulms_scraper`. -/
def initialResult (env : RunEnv) : ScrapeResultD :=
  { assignments := [], quizzes := [], timestamp := env.nowIso,
    success := false, message := "" }

/-- The `upcoming_assignments` list comprehension (scraper.py 505-508). -/
def upcoming_assignments (env : RunEnv) : List RecordData :=
  (scrape_assignments env.nowOrd env.assignmentsTable).filter
    (qualifies DEADLINE_THRESHOLD_DAYS)

/-- The `upcoming_quizzes` list comprehension (scraper.py 510-513). -/
def upcoming_quizzes (env : RunEnv) : List RecordData :=
  (scrape_quizzes env.nowOrd env.quizzesTable).filter
    (qualifies DEADLINE_THRESHOLD_DAYS)

/-- The banner content string of the deadline alert (scraper.py line 517). -/
def ALERT_CONTENT : String := "🚨 **DULMS Upcoming Deadlines Alert** 🚨"

/-- The `try` block of `run_dulms_scraper` (lines 480-531): initialise the
driver (a raise propagates), log in (failure returns the failure result
without raising), scrape both listings, mark success, and when a webhook is
configured and some record qualifies, render the cards and issue the POST.
Returns the result together with the webhook POSTs issued, or the message of
the exception that escaped the block. -/
def tryBody (env : RunEnv) (discord_webhook : Option String) :
    Except String (ScrapeResultD × List Post) :=
  match env.initResult with
  | .error e => .error e
  | .ok _ =>
    if (login_to_dulms env.loginOutcomes).1 = false then
      .ok ({ initialResult env with message := "Failed to login to DULMS" }, [])
    else
      match env.scrapeFault with
      | some e => .error e
      | none =>
        let asgs := scrape_assignments env.nowOrd env.assignmentsTable
        let qzs := scrape_quizzes env.nowOrd env.quizzesTable
        let result := { initialResult env with
                        assignments := asgs, quizzes := qzs, success := true,
                        message := "Scraping completed successfully" }
        match discord_webhook with
        | none => .ok (result, [])
        | some url =>
          if url = "" then .ok (result, [])
          else
            if (upcoming_assignments env).isEmpty &&
                (upcoming_quizzes env).isEmpty then
              .ok (result, [])
            else
              match (if (upcoming_assignments env).isEmpty then .ok []
                     else format_discord_embeds_for_assignments
                       (upcoming_assignments env) : Except String (List Embed)) with
              | .error e => .error e
              | .ok embedsA =>
                match (if (upcoming_quizzes env).isEmpty then .ok []
                       else format_discord_embeds_for_quizzes
                         (upcoming_quizzes env) : Except String (List Embed)) with
                | .error e => .error e
                | .ok embedsQ =>
                  .ok (result,
                    (send_discord_webhook url ALERT_CONTENT
                      (embedsA ++ embedsQ) env.webhookOk).2)

/-- What one call of `run_dulms_scraper` did, beyond its return value: the
webhook POSTs issued, whether `login_to_dulms` was reached, whether
`driver.quit()` was called in the `finally` block, and whether a quit
failure was caught and logged there.  The return type of the function being a
plain structure (not `Except`) reflects that no exception escapes: the
top-level `except` converts faults into a failure result and the `finally`
wraps `driver.quit()` in its own try/except. -/
structure RunOutput where
  result : ScrapeResultD
  posts : List Post
  loginAttempted : Bool
  quitCalled : Bool
  quitFailureLogged : Bool
deriving DecidableEq, Repr

/-- run_dulms_scraper: run the `try` block; an escaping exception is caught
and turned into a `success = false` result whose message records the cause;
the driver is quit in `finally` whenever it was initialised, on every path,
and a quit failure is only logged. -/
def run_dulms_scraper (env : RunEnv) (discord_webhook : Option String) : RunOutput :=
  let driverOpened := match env.initResult with
    | .ok _ => true
    | .error _ => false
  let resultPosts :=
    match tryBody env discord_webhook with
    | .ok rp => rp
    | .error e =>
      let failed := { initialResult env with
                      success := false,
                      message := "Scraper failed with error: " ++ e }
      (failed, [])
  { result := resultPosts.1,
    posts := resultPosts.2,
    loginAttempted := driverOpened,
    quitCalled := driverOpened,
    quitFailureLogged := driverOpened && env.quitFails }

/-! ## task_manager.py — the task registry.

The three module-level dictionaries `task_queues`, `task_results`,
`task_statuses` are modelled as a record of finite maps (functions
`String → Option _`); a `queue.Queue` is modelled as the list of its buffered
entries in producer order.  Credential arguments are threaded through to the
scraper in the source but never stored in the registry, so they are carried
by the scraper environment, not here. -/

/-- A log dictionary as put on a task queue: level, message, timestamp. -/
structure LogEntry where
  level : String
  message : String
  timestamp : String
deriving DecidableEq, Repr

/-- Values stored in `task_results`: either the result dictionary of the scraper
or a bare `\x7b"message": ...\x7d` error dictionary. -/
inductive TaskResultEntry where
  | scrape (r : ScrapeResultD)
  | errorMsg (message : String)
deriving DecidableEq, Repr

/-- Update a finite map at one key. -/
def updateMap (m : String → Option α) (k : String) (v : Option α) :
    String → Option α :=
  fun k2 => if k2 = k then v else m k2

/-- The three storage dictionaries of task_manager.py. -/
structure Registry where
  task_queues : String → Option (List LogEntry)
  task_results : String → Option TaskResultEntry
  task_statuses : String → Option TaskStatus

/-- The dictionaries start empty. -/
def emptyRegistry : Registry :=
  { task_queues := fun _ => none,
    task_results := fun _ => none,
    task_statuses := fun _ => none }

/-- One status-dictionary assignment `task_statuses[task_id] = st`. -/
def setStatus (reg : Registry) (task_id : String) (st : TaskStatus) : Registry :=
  { reg with task_statuses := updateMap reg.task_statuses task_id (some st) }

/-- One result-dictionary assignment `task_results[task_id] = res`. -/
def setResult (reg : Registry) (task_id : String) (res : TaskResultEntry) : Registry :=
  { reg with task_results := updateMap reg.task_results task_id (some res) }

/-- Model of `log_queue.put(entry)` on the queue captured for `task_id` (a
no-op when the queue is absent; the code only calls it with the captured
queue). -/
def pushLog (reg : Registry) (task_id : String) (entry : LogEntry) : Registry :=
  match reg.task_queues task_id with
  | none => reg
  | some q =>
    { reg with task_queues := updateMap reg.task_queues task_id (some (q ++ [entry])) }

/-- create_scraper_task: allocate the log queue and set the initial Pending
status for a fresh identifier (uuid generation is modelled by passing the
fresh identifier in). -/
def create_scraper_task (reg : Registry) (task_id : String) : Registry × String :=
  let reg1 := { reg with task_queues := updateMap reg.task_queues task_id (some []) }
  let reg2 := { reg1 with task_statuses := updateMap reg1.task_statuses task_id (some .pending) }
  (reg2, task_id)

/-- The outcome of the `run_dulms_scraper(...)` call inside
`run_scraper_task`: the returned result dictionary, or the exception the
call raised. -/
inductive ScraperOutcome where
  | returns (r : ScrapeResultD)
  | throws (e : String)
deriving DecidableEq, Repr

/-- run_scraper_task, as the sequence of registry states after each mutation
it performs (the last element is the state when it returns).  Missing log
queue: status Error then the bare error result, and return.  Otherwise:
status Running; on a normal scraper return the result is stored, then the
terminal status set from `result_data.get("success", False)`, then a log
entry pushed; on an exception the Error status is set first, then the error
result stored, then a log entry pushed.  The result dictionary always has a
`message` key, so `result_data.get("message", "Unknown error")` is its
`message` field. -/
def run_scraper_task (reg : Registry) (task_id : String) (now : String)
    (outcome : ScraperOutcome) : List Registry :=
  match reg.task_queues task_id with
  | none =>
    let s1 := setStatus reg task_id .error
    let s2 := setResult s1 task_id (.errorMsg "Log queue not found")
    [s1, s2]
  | some _ =>
    let s1 := setStatus reg task_id .running
    match outcome with
    | .returns r =>
      let s2 := setResult s1 task_id (.scrape r)
      if r.success then
        let s3 := setStatus s2 task_id .completed
        let s4 := pushLog s3 task_id
          { level := "INFO", message := "Scraping task completed successfully",
            timestamp := now }
        [s1, s2, s3, s4]
      else
        let s3 := setStatus s2 task_id .error
        let s4 := pushLog s3 task_id
          { level := "ERROR",
            message := "Scraping task failed: " ++ r.message, timestamp := now }
        [s1, s2, s3, s4]
    | .throws e =>
      let s2 := setStatus s1 task_id .error
      let s3 := setResult s2 task_id (.errorMsg ("An error occurred: " ++ e))
      let s4 := pushLog s3 task_id
        { level := "ERROR",
          message := "Scraping task failed with exception: " ++ e,
          timestamp := now }
      [s1, s2, s3, s4]

/-- get_task_status. -/
def get_task_status (reg : Registry) (task_id : String) : Option TaskStatus :=
  reg.task_statuses task_id

/-- get_task_result. -/
def get_task_result (reg : Registry) (task_id : String) : Option TaskResultEntry :=
  reg.task_results task_id

/-- get_task_logs: drain every currently buffered entry with `get_nowait`
(which removes as it reads) and return them in order; an unknown identifier
yields an empty list.  The `clear` flag exists in the signature and is
ignored, exactly as in the source. -/
def get_task_logs (reg : Registry) (task_id : String) (clear : Bool) :
    List LogEntry × Registry :=
  match reg.task_queues task_id with
  | none => ([], reg)
  | some q =>
    (q, { reg with task_queues := updateMap reg.task_queues task_id (some []) })

/-- The full observable state trace of creating a task in an empty registry
and then executing it once. -/
def createThenRun (task_id : String) (now : String) (outcome : ScraperOutcome) :
    List Registry :=
  let reg1 := (create_scraper_task emptyRegistry task_id).1
  emptyRegistry :: reg1 :: run_scraper_task reg1 task_id now outcome

/-- The status of `task_id` at each state of a trace. -/
def statusesAt (trace : List Registry) (task_id : String) : List (Option TaskStatus) :=
  trace.map (fun reg => get_task_status reg task_id)

/-- The statuses actually present (dropping states where the task does not
exist yet). -/
def observedStatuses (trace : List Registry) (task_id : String) : List TaskStatus :=
  (statusesAt trace task_id).filterMap (fun x => x)

/-- Collapse consecutive duplicates: the sequence of distinct observable
status values. -/
def collapse : List TaskStatus → List TaskStatus
  | [] => []
  | [a] => [a]
  | a :: b :: rest =>
    if a = b then collapse (b :: rest) else a :: collapse (b :: rest)

/-- Whether an optional status is terminal. -/
def optTerminal : Option TaskStatus → Bool
  | some st => st.isTerminal
  | none => false

/-- Whether a registry state has a populated result for the task. -/
def resultSetAt (reg : Registry) (task_id : String) : Bool :=
  (get_task_result reg task_id).isSome

/-- Whether a registry state has a terminal status for the task. -/
def terminalAt (reg : Registry) (task_id : String) : Bool :=
  optTerminal (get_task_status reg task_id)

end Dulms

/-! ## Theorems -/

namespace Dulms

/-- C5: the notification filter qualifies a record exactly when its
`days_remaining` is not null and is at most `DEADLINE_THRESHOLD_DAYS`; with
the default threshold 3, `days_remaining = 3` qualifies, `4` does not, and a
null `days_remaining` never qualifies. -/
theorem c5_notification_filter :
    (∀ (t : Int) (r : RecordData),
      qualifies t r = true ↔ ∃ d, r.days_remaining = some d ∧ d ≤ t) ∧
    DEADLINE_THRESHOLD_DAYS = 3 ∧
    (∀ s, qualifies DEADLINE_THRESHOLD_DAYS (mkRecord (some 3) s) = true) ∧
    (∀ s, qualifies DEADLINE_THRESHOLD_DAYS (mkRecord (some 4) s) = false) ∧
    (∀ s, qualifies DEADLINE_THRESHOLD_DAYS (mkRecord none s) = false) := by
  refine ⟨?_, rfl, ?_, ?_, ?_⟩
  · intro t r
    constructor
    · intro h
      cases hd : r.days_remaining with
      | none => simp [qualifies, hd] at h
      | some d =>
        refine ⟨d, rfl, ?_⟩
        simpa [qualifies, hd] using h
    · rintro ⟨d, hd, hle⟩
      simp [qualifies, hd, hle]
  · intro s; rfl
  · intro s; rfl
  · intro s; rfl

/-- The CAPTCHA loop performs at most one solver call per remaining
iteration. -/
lemma loginLoop_solves_le (outcomes : Nat → AttemptOutcome) :
    ∀ (remaining i solves : Nat),
      (loginLoop outcomes i remaining solves).2 ≤ solves + remaining := by
  intro remaining
  induction remaining with
  | zero => intro i solves; simp [loginLoop]
  | succ r ih =>
    intro i solves
    rw [loginLoop]
    cases outcomes i with
    | noImage => exact le_trans (ih (i + 1) solves) (by omega)
    | solveFailed => exact le_trans (ih (i + 1) (solves + 1)) (by omega)
    | loginSuccess => simp
    | errorCaptcha => exact le_trans (ih (i + 1) (solves + 1)) (by omega)
    | errorOther => simp
    | noSignal => exact le_trans (ih (i + 1) (solves + 1)) (by omega)

/-- If no iteration in the window reports a login success, the CAPTCHA loop
returns false. -/
lemma loginLoop_exhaust_false (outcomes : Nat → AttemptOutcome) :
    ∀ (remaining i solves : Nat),
      (∀ j, i ≤ j → j < i + remaining → outcomes j ≠ .loginSuccess) →
      (loginLoop outcomes i remaining solves).1 = false := by
  intro remaining
  induction remaining with
  | zero => intro i solves _; simp [loginLoop]
  | succ r ih =>
    intro i solves h
    have hnext : ∀ j, i + 1 ≤ j → j < (i + 1) + r → outcomes j ≠ .loginSuccess := by
      intro j hj1 hj2
      exact h j (by omega) (by omega)
    have hi : outcomes i ≠ .loginSuccess := h i (le_refl i) (by omega)
    rw [loginLoop]
    cases hcase : outcomes i with
    | noImage => exact ih (i + 1) solves hnext
    | solveFailed => exact ih (i + 1) (solves + 1) hnext
    | loginSuccess => exact absurd hcase hi
    | errorCaptcha => exact ih (i + 1) (solves + 1) hnext
    | errorOther => rfl
    | noSignal => exact ih (i + 1) (solves + 1) hnext

/-- C1: for every run of `login_to_dulms`, the number of CAPTCHA solve
attempts is at most `MAX_LOGIN_RETRIES * CAPTCHA_SOLVE_RETRIES` (the code has
a single loop of `CAPTCHA_SOLVE_RETRIES` iterations, hence at most
`CAPTCHA_SOLVE_RETRIES ≤ MAX_LOGIN_RETRIES * CAPTCHA_SOLVE_RETRIES` attempts,
never more), and exhausting every attempt without a login success makes
`login_to_dulms` return failure. -/
theorem c1_login_retry_bound (outcomes : Nat → AttemptOutcome) :
    (login_to_dulms outcomes).2 ≤ CAPTCHA_SOLVE_RETRIES ∧
    (login_to_dulms outcomes).2 ≤ MAX_LOGIN_RETRIES * CAPTCHA_SOLVE_RETRIES ∧
    ((∀ i, i < CAPTCHA_SOLVE_RETRIES → outcomes i ≠ .loginSuccess) →
      (login_to_dulms outcomes).1 = false) := by
  have hb := loginLoop_solves_le outcomes CAPTCHA_SOLVE_RETRIES 0 0
  refine ⟨by simpa [login_to_dulms] using hb, ?_, ?_⟩
  · have : CAPTCHA_SOLVE_RETRIES ≤ MAX_LOGIN_RETRIES * CAPTCHA_SOLVE_RETRIES := by
      simp [MAX_LOGIN_RETRIES, CAPTCHA_SOLVE_RETRIES]
    exact le_trans (by simpa [login_to_dulms] using hb) this
  · intro h
    refine loginLoop_exhaust_false outcomes CAPTCHA_SOLVE_RETRIES 0 0 ?_
    intro j _ hj
    exact h j (by omega)

/-- C1 witness: a run whose solver always fails makes at most nine solve
attempts and returns failure. -/
theorem c1_login_retry_bound_witness :
    (login_to_dulms fun _ => .solveFailed).2 ≤
        MAX_LOGIN_RETRIES * CAPTCHA_SOLVE_RETRIES ∧
    (login_to_dulms fun _ => .solveFailed).1 = false := by
  have h := c1_login_retry_bound (fun _ => .solveFailed)
  exact ⟨h.2.1, h.2.2 (by decide)⟩

/-- C6: for every record the formatter renders, the card colour is red when
`days_remaining ≤ 1`, yellow when `days_remaining > 1`, and green — whatever
the days remaining — when the status text case-insensitively equals the done
marker ("submitted" for assignments, "completed" for quizzes); concretely,
0 days gives red, 2 gives yellow, 5 days with status "Submitted" gives
green. -/
theorem c6_card_color :
    (∀ (r : RecordData) (d : Int), r.days_remaining = some d →
      ∃ e, format_discord_embeds_for_assignments [r] = .ok [e] ∧
        e.color = cardColor "submitted" d r.status) ∧
    (∀ (r : RecordData) (d : Int), r.days_remaining = some d →
      ∃ e, format_discord_embeds_for_quizzes [r] = .ok [e] ∧
        e.color = cardColor "completed" d r.status) ∧
    (∀ (m s : String) (d : Int),
      (strLower s = m → cardColor m d s = 0x00FF00) ∧
      (strLower s ≠ m → d ≤ 1 → cardColor m d s = 0xFF0000) ∧
      (strLower s ≠ m → 1 < d → cardColor m d s = 0xFFFF00)) ∧
    cardColor "submitted" 0 "Pending" = 0xFF0000 ∧
    cardColor "submitted" 2 "Pending" = 0xFFFF00 ∧
    cardColor "submitted" 5 "Submitted" = 0x00FF00 := by
  refine ⟨?_, ?_, ?_, by decide, by decide, by decide⟩
  · intro r d hd
    exact ⟨⟨r.title, embedDescription r (toString d),
            cardColor "submitted" d r.status, r.url⟩,
      by simp [format_discord_embeds_for_assignments, hd], rfl⟩
  · intro r d hd
    exact ⟨⟨r.title, embedDescription r (toString d),
            cardColor "completed" d r.status, r.url⟩,
      by simp [format_discord_embeds_for_quizzes, hd], rfl⟩
  · intro m s d
    refine ⟨?_, ?_, ?_⟩
    · intro h; simp [cardColor, h]
    · intro h hle
      simp [cardColor, h, not_lt.mpr hle]
    · intro h hlt
      simp [cardColor, h, hlt]

/-- C6 witness: a record five days out but already submitted renders green. -/
theorem c6_card_color_witness :
    (∃ e, format_discord_embeds_for_assignments
            [mkRecord (some 5) "Submitted"] = .ok [e] ∧
          e.color = cardColor "submitted" 5 "Submitted") ∧
    cardColor "submitted" 0 "Pending" = 0xFF0000 := by
  refine ⟨c6_card_color.1 (mkRecord (some 5) "Submitted") 5 rfl, ?_⟩
  exact (c6_card_color.2.2.1 "submitted" "Pending" 0).2.1 (by decide) (by decide)

/-! ### Task registry theorems -/

/-- Status trace of a created-then-run task whose scraper returns success. -/
lemma statusesAt_createThenRun_success (id now : String) (r : ScrapeResultD)
    (hr : r.success = true) :
    statusesAt (createThenRun id now (.returns r)) id =
      [none, some .pending, some .running, some .running,
        some .completed, some .completed] := by
  simp [statusesAt, createThenRun, create_scraper_task, run_scraper_task, hr,
    setStatus, setResult, pushLog, get_task_status, updateMap, emptyRegistry]

/-- Status trace of a created-then-run task whose scraper returns failure. -/
lemma statusesAt_createThenRun_failure (id now : String) (r : ScrapeResultD)
    (hr : r.success = false) :
    statusesAt (createThenRun id now (.returns r)) id =
      [none, some .pending, some .running, some .running,
        some .error, some .error] := by
  simp [statusesAt, createThenRun, create_scraper_task, run_scraper_task, hr,
    setStatus, setResult, pushLog, get_task_status, updateMap, emptyRegistry]

/-- Status trace of a created-then-run task whose scraper raises. -/
lemma statusesAt_createThenRun_throws (id now e : String) :
    statusesAt (createThenRun id now (.throws e)) id =
      [none, some .pending, some .running, some .error,
        some .error, some .error] := by
  simp [statusesAt, createThenRun, create_scraper_task, run_scraper_task,
    setStatus, setResult, pushLog, get_task_status, updateMap, emptyRegistry]

/-- C3: every task created and then executed once shows the status sequence
Pending, Running, and then exactly one of Completed or Error, in that order
and in no other, and once a state of the trace is terminal every later state
shows that same terminal status. -/
theorem c3_status_order (id now : String) (outcome : ScraperOutcome) :
    (collapse (observedStatuses (createThenRun id now outcome) id) =
        [.pending, .running, .completed] ∨
      collapse (observedStatuses (createThenRun id now outcome) id) =
        [.pending, .running, .error]) ∧
    (∀ j, j < (statusesAt (createThenRun id now outcome) id).length →
      ∀ i, i ≤ j →
        optTerminal ((statusesAt (createThenRun id now outcome) id).getD i none) = true →
        (statusesAt (createThenRun id now outcome) id).getD j none =
          (statusesAt (createThenRun id now outcome) id).getD i none) := by
  cases outcome with
  | returns r =>
    cases hr : r.success with
    | true =>
      have h := statusesAt_createThenRun_success id now r hr
      refine ⟨Or.inl ?_, ?_⟩
      · simp only [observedStatuses, h]; decide
      · simp only [h]; decide
    | false =>
      have h := statusesAt_createThenRun_failure id now r hr
      refine ⟨Or.inr ?_, ?_⟩
      · simp only [observedStatuses, h]; decide
      · simp only [h]; decide
  | throws e =>
    have h := statusesAt_createThenRun_throws id now e
    refine ⟨Or.inr ?_, ?_⟩
    · simp only [observedStatuses, h]; decide
    · simp only [h]; decide

/-- C3 witness: the concrete trace of a task whose scraper raises, with a
concrete instance of terminal-status stability. -/
theorem c3_status_order_witness :
    (collapse (observedStatuses (createThenRun "t" "n" (.throws "x")) "t") =
        [.pending, .running, .completed] ∨
      collapse (observedStatuses (createThenRun "t" "n" (.throws "x")) "t") =
        [.pending, .running, .error]) ∧
    (statusesAt (createThenRun "t" "n" (.throws "x")) "t").getD 5 none =
      (statusesAt (createThenRun "t" "n" (.throws "x")) "t").getD 3 none := by
  have h := c3_status_order "t" "n" (.throws "x")
  exact ⟨h.1, h.2 5 (by decide) 3 (by decide) (by decide)⟩

/-- C2 counterexample: when the scraper raises, `run_scraper_task` sets the
Error status at trace step 3 and stores the result only at step 4, so the
result store does not precede or coincide with the terminal transition. -/
theorem c2_result_before_terminal_counterexample :
    ¬ (∀ ri ti,
        (createThenRun "t" "n" (.throws "boom")).findIdx?
          (fun reg => resultSetAt reg "t") = some ri →
        (createThenRun "t" "n" (.throws "boom")).findIdx?
          (fun reg => terminalAt reg "t") = some ti →
        ri ≤ ti) := by
  intro h
  have := h 4 3 (by decide) (by decide)
  omega

/-- C2 (amended): after the single execution finishes, the result is
populated and the status is terminal; the result store and the terminal
transition are adjacent trace steps — the store comes one step before the
transition when the scraper returns normally, and one step after it when the
scraper raises. -/
theorem c2_result_terminal_amended (id now : String) (outcome : ScraperOutcome) :
    (resultSetAt ((createThenRun id now outcome).getD 5 emptyRegistry) id = true ∧
      terminalAt ((createThenRun id now outcome).getD 5 emptyRegistry) id = true) ∧
    (∀ r, outcome = .returns r →
      resultSetAt ((createThenRun id now outcome).getD 2 emptyRegistry) id = false ∧
      resultSetAt ((createThenRun id now outcome).getD 3 emptyRegistry) id = true ∧
      terminalAt ((createThenRun id now outcome).getD 3 emptyRegistry) id = false ∧
      terminalAt ((createThenRun id now outcome).getD 4 emptyRegistry) id = true) ∧
    (∀ e, outcome = .throws e →
      terminalAt ((createThenRun id now outcome).getD 2 emptyRegistry) id = false ∧
      terminalAt ((createThenRun id now outcome).getD 3 emptyRegistry) id = true ∧
      resultSetAt ((createThenRun id now outcome).getD 3 emptyRegistry) id = false ∧
      resultSetAt ((createThenRun id now outcome).getD 4 emptyRegistry) id = true) := by
  refine ⟨?_, ?_, ?_⟩
  · cases outcome with
    | returns r =>
      cases hr : r.success <;>
        simp [createThenRun, create_scraper_task, run_scraper_task, hr,
          setStatus, setResult, pushLog, get_task_status, get_task_result,
          resultSetAt, terminalAt, optTerminal, TaskStatus.isTerminal,
          updateMap, emptyRegistry]
    | throws e =>
      simp [createThenRun, create_scraper_task, run_scraper_task,
        setStatus, setResult, pushLog, get_task_status, get_task_result,
        resultSetAt, terminalAt, optTerminal, TaskStatus.isTerminal,
        updateMap, emptyRegistry]
  · rintro r rfl
    cases hr : r.success <;>
      simp [createThenRun, create_scraper_task, run_scraper_task, hr,
        setStatus, setResult, pushLog, get_task_status, get_task_result,
        resultSetAt, terminalAt, optTerminal, TaskStatus.isTerminal,
        updateMap, emptyRegistry]
  · rintro e rfl
    simp [createThenRun, create_scraper_task, run_scraper_task,
      setStatus, setResult, pushLog, get_task_status, get_task_result,
      resultSetAt, terminalAt, optTerminal, TaskStatus.isTerminal,
      updateMap, emptyRegistry]

/-- C2 witness: the amended statement instantiated on a raising scraper. -/
theorem c2_result_terminal_amended_witness :
    (resultSetAt ((createThenRun "t" "n" (.throws "boom")).getD 5 emptyRegistry)
        "t" = true ∧
      terminalAt ((createThenRun "t" "n" (.throws "boom")).getD 5 emptyRegistry)
        "t" = true) ∧
    terminalAt ((createThenRun "t" "n" (.throws "boom")).getD 3 emptyRegistry)
        "t" = true ∧
    resultSetAt ((createThenRun "t" "n" (.throws "boom")).getD 4 emptyRegistry)
        "t" = true := by
  have h := c2_result_terminal_amended "t" "n" (.throws "boom")
  have h2 := h.2.2 "boom" rfl
  exact ⟨h.1, h2.2.1, h2.2.2.2⟩

/-- C9: draining the logs returns every currently buffered entry in producer
order and removes them, so a second drain with no writes in between returns
the empty sequence. -/
theorem c9_drain_logs (reg : Registry) (id : String) (q : List LogEntry)
    (c1 c2 : Bool) (h : reg.task_queues id = some q) :
    (get_task_logs reg id c1).1 = q ∧
    (get_task_logs (get_task_logs reg id c1).2 id c2).1 = [] := by
  constructor <;> simp [get_task_logs, h, updateMap]

/-- C9 witness: one buffered entry is delivered by the first drain and the
second drain is empty. -/
theorem c9_drain_logs_witness :
    (get_task_logs
      (pushLog (create_scraper_task emptyRegistry "t").1 "t"
        { level := "INFO", message := "m", timestamp := "s" }) "t" false).1 =
      [{ level := "INFO", message := "m", timestamp := "s" }] ∧
    (get_task_logs
      (get_task_logs
        (pushLog (create_scraper_task emptyRegistry "t").1 "t"
          { level := "INFO", message := "m", timestamp := "s" }) "t" false).2
      "t" true).1 = [] := by
  exact c9_drain_logs _ "t"
    [{ level := "INFO", message := "m", timestamp := "s" }] false true (by decide)

/-- C10: running `run_scraper_task` for an identifier with no log queue sets
the status of that identifier directly to Error with the bare result message
"Log queue not found" and returns after those two writes, never entering the
Running state — thereby creating status and result entries for an identifier
the registry never issued. -/
theorem c10_missing_queue (reg : Registry) (id now : String)
    (outcome : ScraperOutcome) (h : reg.task_queues id = none) :
    (run_scraper_task reg id now outcome).length = 2 ∧
    get_task_status
      ((run_scraper_task reg id now outcome).getD 1 emptyRegistry) id =
        some .error ∧
    get_task_result
      ((run_scraper_task reg id now outcome).getD 1 emptyRegistry) id =
        some (.errorMsg "Log queue not found") ∧
    (∀ s ∈ run_scraper_task reg id now outcome,
      get_task_status s id ≠ some .running) := by
  refine ⟨by simp [run_scraper_task, h], ?_, ?_, ?_⟩
  · simp [run_scraper_task, h, setStatus, setResult, get_task_status, updateMap]
  · simp [run_scraper_task, h, setStatus, setResult, get_task_result, updateMap]
  · intro s hs
    simp [run_scraper_task, h] at hs
    rcases hs with hs | hs <;> subst hs <;>
      simp [setStatus, setResult, get_task_status, updateMap]

/-! ### Session orchestrator theorems -/

/-- C4: a failed browser-session open yields a failure result recording the
cause with no authentication attempt (and nothing to release); any injected
fault after login is converted into a failure result rather than raised; the
driver is quit on every exit path once it was opened; and a quit failure
never changes the returned result or the POSTs issued (it is only logged). -/
theorem c4_session_lifecycle (env : RunEnv) (webhook : Option String) :
    (∀ e, env.initResult = .error e →
      (run_dulms_scraper env webhook).result.success = false ∧
      (run_dulms_scraper env webhook).result.message =
        "Scraper failed with error: " ++ e ∧
      (run_dulms_scraper env webhook).loginAttempted = false ∧
      (run_dulms_scraper env webhook).quitCalled = false) ∧
    (∀ e, env.initResult = .ok () → env.scrapeFault = some e →
      (login_to_dulms env.loginOutcomes).1 = true →
      (run_dulms_scraper env webhook).result.success = false ∧
      (run_dulms_scraper env webhook).result.message =
        "Scraper failed with error: " ++ e) ∧
    (env.initResult = .ok () → (run_dulms_scraper env webhook).quitCalled = true) ∧
    (∀ b, (run_dulms_scraper { env with quitFails := b } webhook).result =
        (run_dulms_scraper env webhook).result ∧
      (run_dulms_scraper { env with quitFails := b } webhook).posts =
        (run_dulms_scraper env webhook).posts) := by
  refine ⟨?_, ?_, ?_, ?_⟩
  · intro e h
    simp [run_dulms_scraper, tryBody, h, initialResult]
  · intro e h1 h2 h3
    simp [run_dulms_scraper, tryBody, h1, h2, h3, initialResult]
  · intro h
    simp [run_dulms_scraper, h]
  · intro b
    cases env
    exact ⟨rfl, rfl⟩

/-- Environment whose browser session fails to open. -/
def envInitFail : RunEnv :=
  { initResult := .error "boom", loginOutcomes := fun _ => .noImage,
    assignmentsTable := none, quizzesTable := none, scrapeFault := none,
    webhookOk := true, quitFails := false, nowOrd := 0, nowIso := "ts" }

/-- C4 witness: the session-open failure path on a concrete environment. -/
theorem c4_session_lifecycle_witness :
    (run_dulms_scraper envInitFail none).result.success = false ∧
    (run_dulms_scraper envInitFail none).result.message =
      "Scraper failed with error: " ++ "boom" ∧
    (run_dulms_scraper envInitFail none).loginAttempted = false ∧
    (run_dulms_scraper envInitFail none).quitCalled = false := by
  exact (c4_session_lifecycle envInitFail none).1 "boom" rfl

/-- Rendering assignments succeeds, with one embed per record, whenever every
record has a non-null `days_remaining`. -/
lemma format_assignments_ok : ∀ (l : List RecordData),
    (∀ r ∈ l, r.days_remaining ≠ none) →
    ∃ es, format_discord_embeds_for_assignments l = .ok es ∧
      es.length = l.length := by
  intro l
  induction l with
  | nil => intro _; exact ⟨[], rfl, rfl⟩
  | cons a rest ih =>
    intro h
    obtain ⟨es, hes, hlen⟩ := ih (fun r hr => h r (List.mem_cons_of_mem a hr))
    cases hd : a.days_remaining with
    | none => exact absurd hd (h a (List.mem_cons_self a rest))
    | some d =>
      refine ⟨{ title := a.title, description := embedDescription a (toString d),
                color := cardColor "submitted" d a.status, url := a.url } :: es,
        ?_, ?_⟩
      · simp [format_discord_embeds_for_assignments, hd, hes]
      · simp [hlen]

/-- Rendering quizzes succeeds, with one embed per record, whenever every
record has a non-null `days_remaining`. -/
lemma format_quizzes_ok : ∀ (l : List RecordData),
    (∀ r ∈ l, r.days_remaining ≠ none) →
    ∃ es, format_discord_embeds_for_quizzes l = .ok es ∧
      es.length = l.length := by
  intro l
  induction l with
  | nil => intro _; exact ⟨[], rfl, rfl⟩
  | cons a rest ih =>
    intro h
    obtain ⟨es, hes, hlen⟩ := ih (fun r hr => h r (List.mem_cons_of_mem a hr))
    cases hd : a.days_remaining with
    | none => exact absurd hd (h a (List.mem_cons_self a rest))
    | some d =>
      refine ⟨{ title := a.title, description := embedDescription a (toString d),
                color := cardColor "completed" d a.status, url := a.url } :: es,
        ?_, ?_⟩
      · simp [format_discord_embeds_for_quizzes, hd, hes]
      · simp [hlen]

/-- Every record the deadline filter keeps has a non-null `days_remaining`. -/
lemma qualifies_days_ne_none (t : Int) (l : List RecordData) :
    ∀ r ∈ l.filter (qualifies t), r.days_remaining ≠ none := by
  intro r hr hd
  have hq := (List.mem_filter.mp hr).2
  simp [qualifies, hd] at hq

/-- C7: with a webhook configured and a run that reaches the dispatch step,
no POST at all is issued when no assignment and no quiz qualifies; otherwise
exactly one POST is issued, whose payload carries exactly one rendered card
per qualifying assignment followed by one per qualifying quiz. -/
theorem c7_webhook_dispatch (env : RunEnv) (url : String)
    (hinit : env.initResult = .ok ())
    (hlogin : (login_to_dulms env.loginOutcomes).1 = true)
    (hfault : env.scrapeFault = none)
    (hurl : url ≠ "") :
    (upcoming_assignments env = [] → upcoming_quizzes env = [] →
      (run_dulms_scraper env (some url)).posts = []) ∧
    (upcoming_assignments env ≠ [] ∨ upcoming_quizzes env ≠ [] →
      ∃ esA esQ,
        format_discord_embeds_for_assignments (upcoming_assignments env) =
          .ok esA ∧
        format_discord_embeds_for_quizzes (upcoming_quizzes env) = .ok esQ ∧
        esA.length = (upcoming_assignments env).length ∧
        esQ.length = (upcoming_quizzes env).length ∧
        (run_dulms_scraper env (some url)).posts =
          [{ url := url, content := ALERT_CONTENT,
             embeds := some (esA ++ esQ) }]) := by
  constructor
  · intro hA hQ
    simp [run_dulms_scraper, tryBody, hinit, hlogin, hfault, hurl, hA, hQ]
  · intro hne
    have hAd : ∀ r ∈ upcoming_assignments env, r.days_remaining ≠ none :=
      fun r hr => qualifies_days_ne_none DEADLINE_THRESHOLD_DAYS
        (scrape_assignments env.nowOrd env.assignmentsTable) r hr
    have hQd : ∀ r ∈ upcoming_quizzes env, r.days_remaining ≠ none :=
      fun r hr => qualifies_days_ne_none DEADLINE_THRESHOLD_DAYS
        (scrape_quizzes env.nowOrd env.quizzesTable) r hr
    obtain ⟨esA, hesA, hlenA⟩ := format_assignments_ok _ hAd
    obtain ⟨esQ, hesQ, hlenQ⟩ := format_quizzes_ok _ hQd
    refine ⟨esA, esQ, hesA, hesQ, hlenA, hlenQ, ?_⟩
    have hcond : ((upcoming_assignments env).isEmpty &&
        (upcoming_quizzes env).isEmpty) = false := by
      rcases hne with h | h
      · cases hA : upcoming_assignments env with
        | nil => exact absurd hA h
        | cons a l => simp [hA]
      · cases hQ : upcoming_quizzes env with
        | nil => exact absurd hQ h
        | cons a l => simp [hQ]
    have hEor : ¬(esA = [] ∧ esQ = []) := by
      rintro ⟨ha, hq⟩
      rcases hne with h | h
      · refine h ?_
        have : (upcoming_assignments env).length = 0 := by
          rw [← hlenA, ha]; rfl
        exact List.eq_nil_of_length_eq_zero this
      · refine h ?_
        have : (upcoming_quizzes env).length = 0 := by
          rw [← hlenQ, hq]; rfl
        exact List.eq_nil_of_length_eq_zero this
    have hA2 : (if upcoming_assignments env = [] then
        (Except.ok [] : Except String (List Embed))
        else format_discord_embeds_for_assignments
          (upcoming_assignments env)) = .ok esA := by
      by_cases hA : upcoming_assignments env = []
      · rw [if_pos hA]
        rw [hA] at hesA
        exact hesA
      · rw [if_neg hA]
        exact hesA
    have hQ2 : (if upcoming_quizzes env = [] then
        (Except.ok [] : Except String (List Embed))
        else format_discord_embeds_for_quizzes
          (upcoming_quizzes env)) = .ok esQ := by
      by_cases hQ : upcoming_quizzes env = []
      · rw [if_pos hQ]
        rw [hQ] at hesQ
        exact hesQ
      · rw [if_neg hQ]
        exact hesQ
    simp [run_dulms_scraper, tryBody, hinit, hlogin, hfault, hurl, hcond,
      hA2, hQ2, send_discord_webhook, hEor]

/-- One six-cell assignment row with the given first-cell text and deadline
text. -/
def c7Row (idx deadline : String) : SRow :=
  .cells [{ text := idx, link := none },
          { text := "Title", link := some ("T", "http://a") },
          { text := "Course", link := none },
          { text := deadline, link := none },
          { text := "", link := none },
          { text := "Pending", link := none }]

/-- A concrete environment: five assignment rows scraped, of which two are
within the three-day threshold (one unparseable deadline), and no quiz
rows. -/
def c7Env : RunEnv :=
  { initResult := .ok (),
    loginOutcomes := fun _ => .loginSuccess,
    assignmentsTable := some [.cells [],
      c7Row "1" "02/01/2020", c7Row "2" "03/01/2020", c7Row "3" "20/01/2020",
      c7Row "4" "01/03/2020", c7Row "5" "bad-date"],
    quizzesTable := some [.cells []],
    scrapeFault := none, webhookOk := true, quitFails := false,
    nowOrd := daysFromCivil 2020 1 1, nowIso := "ts" }

/-- C7 witness: five scraped assignments, two qualifying, no qualifying quiz
— one POST with exactly two assignment cards and no quiz cards. -/
theorem c7_webhook_dispatch_witness :
    (scrape_assignments c7Env.nowOrd c7Env.assignmentsTable).length = 5 ∧
    (upcoming_assignments c7Env).length = 2 ∧
    upcoming_quizzes c7Env = [] ∧
    (∃ esA esQ,
      format_discord_embeds_for_assignments (upcoming_assignments c7Env) =
        .ok esA ∧
      format_discord_embeds_for_quizzes (upcoming_quizzes c7Env) = .ok esQ ∧
      esA.length = (upcoming_assignments c7Env).length ∧
      esQ.length = (upcoming_quizzes c7Env).length ∧
      (run_dulms_scraper c7Env (some "https://discord.example/hook")).posts =
        [{ url := "https://discord.example/hook", content := ALERT_CONTENT,
           embeds := some (esA ++ esQ) }]) := by
  refine ⟨by decide, by decide, by decide, ?_⟩
  exact (c7_webhook_dispatch c7Env "https://discord.example/hook" rfl
    (by decide) rfl (by decide)).2 (Or.inl (by decide))

/-- Spot checks of the date model against
`datetime.strptime(s, "%d/%m/%Y")`: the four-digit year requirement, the
day/month group shapes, Unicode decimal digits inside `[12]\d` and `%Y`,
month-length and leap-year validation, and the rejection of day and year
zero. -/
lemma parseDMY_strptime_samples :
    parseDMY "05/01/2021" = some (5, 1, 2021) ∧
    parseDMY "5/1/21" = none ∧
    parseDMY "5/1/2021" = some (5, 1, 2021) ∧
    parseDMY "31/04/2020" = none ∧
    parseDMY "29/02/2020" = some (29, 2, 2020) ∧
    parseDMY "29/02/2019" = none ∧
    parseDMY "1٢/01/2020" = some (12, 1, 2020) ∧
    parseDMY "01/01/٢٠٢٠" = some (1, 1, 2020) ∧
    parseDMY "0/1/2020" = none ∧
    parseDMY "01/01/0000" = none ∧
    strTrim " 01/01/2020 " = "01/01/2020" := by decide

/-- C8: during a listing scrape, any row that contributes no record (too few
cells, or a raising row) is skipped without affecting the records of the
remaining rows, a row with fewer than six cells contributes no record, and a
row whose deadline string fails the %d/%m/%Y format still yields a record,
with `days_remaining = none` for that record only. -/
theorem c8_row_resilience (now : Int) (hdr row : SRow) (pre post : List SRow) :
    (processListingRow ASSIGNMENTS_URL now row = none →
      scrape_assignments now (some (hdr :: (pre ++ row :: post))) =
        scrape_assignments now (some (hdr :: (pre ++ post)))) ∧
    (processListingRow QUIZZES_URL now row = none →
      scrape_quizzes now (some (hdr :: (pre ++ row :: post))) =
        scrape_quizzes now (some (hdr :: (pre ++ post)))) ∧
    (∀ url cs, cs.length < 6 → processListingRow url now (.cells cs) = none) ∧
    (∀ url, processListingRow url now .raises = none) ∧
    (∀ url cs, 6 ≤ cs.length →
      parseDMY (strTrim (cs.getD 3 defaultCell).text) = none →
      ∃ rec, processListingRow url now (.cells cs) = some rec ∧
        rec.days_remaining = none ∧
        rec.deadline = strTrim (cs.getD 3 defaultCell).text) := by
  refine ⟨?_, ?_, ?_, ?_, ?_⟩
  · intro h
    simp [scrape_assignments, List.filterMap_append, List.filterMap_cons, h]
  · intro h
    simp [scrape_quizzes, List.filterMap_append, List.filterMap_cons, h]
  · intro url cs h
    simp [processListingRow, h]
  · intro url; rfl
  · intro url cs h hparse
    simp only [processListingRow]
    rw [if_neg (by omega)]
    simp only [hparse]
    exact ⟨_, rfl, rfl, rfl⟩

/-- C8 witness: a 1-cell row is skipped while its neighbours survive, and a
6-cell row with an unparseable deadline keeps its record with
`days_remaining = none`. -/
theorem c8_row_resilience_witness :
    (processListingRow ASSIGNMENTS_URL 0 (.cells [{ text := "x", link := none }]) = none →
      scrape_assignments 0 (some (.cells [] ::
          ([] ++ (.cells [{ text := "x", link := none }]) :: []))) =
        scrape_assignments 0 (some (.cells [] :: ([] ++ [])))) ∧
    (∃ rec, processListingRow ASSIGNMENTS_URL 0
        (.cells [{ text := "1", link := none }, { text := "T", link := none },
          { text := "C", link := none }, { text := "not a date", link := none },
          { text := "", link := none }, { text := "Pending", link := none }]) =
          some rec ∧
        rec.days_remaining = none ∧
        rec.deadline = strTrim "not a date") := by
  have h := c8_row_resilience 0 (.cells [])
    (.cells [{ text := "x", link := none }]) [] []
  refine ⟨h.1, ?_⟩
  have h5 := h.2.2.2.2 ASSIGNMENTS_URL
    [{ text := "1", link := none }, { text := "T", link := none },
      { text := "C", link := none }, { text := "not a date", link := none },
      { text := "", link := none }, { text := "Pending", link := none }]
    (by decide) (by decide)
  simpa using h5

/-- C10 witness: a never-issued identifier run against the empty registry. -/
theorem c10_missing_queue_witness :
    (run_scraper_task emptyRegistry "ghost" "n" (.throws "x")).length = 2 ∧
    get_task_status
      ((run_scraper_task emptyRegistry "ghost" "n" (.throws "x")).getD 1
        emptyRegistry) "ghost" = some .error ∧
    get_task_result
      ((run_scraper_task emptyRegistry "ghost" "n" (.throws "x")).getD 1
        emptyRegistry) "ghost" = some (.errorMsg "Log queue not found") ∧
    (∀ s ∈ run_scraper_task emptyRegistry "ghost" "n" (.throws "x"),
      get_task_status s "ghost" ≠ some .running) :=
  c10_missing_queue emptyRegistry "ghost" "n" (.throws "x") rfl

end Dulms
